import Mathlib

/-!
# Verification of the tourism query-interpretation pipeline

A shallow embedding, in Lean 4, of the core of the `Ipmo22c/tourism`
repository (`agents/tourism_agent.py`, `agents/places_agent.py`,
`agents/weather_agent.py`), together with theorems settling the frozen
claims about its natural-language specification.

Modelling conventions:
* Python strings are Lean `String`s; most computations work on the
  underlying `List Char` (`String.data`), and every Python string
  primitive used by the source (`lower`, `strip`, `split`, `find`,
  `in`, `title`, ...) is re-implemented explicitly below so that all
  definitions evaluate by kernel reduction.
* Python regular-expression searches are embedded as explicit
  backtracking scanners, one per pattern, that reproduce `re.search`
  semantics (leftmost match; greedy `\s+` tries longest first; lazy
  `+?` groups try shortest first; alternatives in written order).
* Provider responses (Nominatim geocoding, Open-Meteo weather,
  Overpass places, place details) are supplied by an explicit
  environment record; numeric provider fields are modelled exactly:
  `importance` as an integer count of hundredths (the source only
  compares it against the constants 0.4, 0.5, 0.6, 0.7, 0.8, which
  become 40,...,80), temperatures as integers (so Python `round` is
  the identity on them).
* The ambient clock hour and the `random.choice` draw in
  `format_places_response` are passed as explicit `hour`/`rng`
  parameters.
* A Python exception escaping `process_query` is modelled by
  `Except.error`; the only such site in the core is
  `round()` applied to the string `"N/A"` in
  `format_weather_response`, which raises `TypeError`.
-/

set_option maxRecDepth 4000

namespace Tourism

/-! ## Python string primitives -/

/-- Characters counted as whitespace by Python's `str.strip`, `str.split()`
and the regex class `\s` (space, tab, newline, carriage return, vertical
tab, form feed). -/
def isPySpace (c : Char) : Bool :=
  c = ' ' || c = '\t' || c = '\n' || c = '\r' || c = '\x0b' || c = '\x0c'

/-- ASCII alphabetic character (the regex class `[a-zA-Z]`). -/
def isAsciiAlpha (c : Char) : Bool :=
  ('a' ≤ c && c ≤ 'z') || ('A' ≤ c && c ≤ 'Z')

/-- ASCII uppercase letter (Python `str.isupper` on our ASCII inputs). -/
def isAsciiUpper (c : Char) : Bool := 'A' ≤ c && c ≤ 'Z'

/-- ASCII lowercase letter (Python `str.islower` on our ASCII inputs). -/
def isAsciiLower (c : Char) : Bool := 'a' ≤ c && c ≤ 'z'

/-- Word character for the regex `\b` boundary: `[a-zA-Z0-9_]`. -/
def isWordChar (c : Char) : Bool :=
  isAsciiAlpha c || ('0' ≤ c && c ≤ '9') || c = '_'

/-- Python `str.lower`, per character (ASCII; all inputs under test are
ASCII apart from emoji, which `lower` leaves unchanged). -/
def lowerChar (c : Char) : Char :=
  if isAsciiUpper c then Char.ofNat (c.toNat + 32) else c

def upperChar (c : Char) : Char :=
  if isAsciiLower c then Char.ofNat (c.toNat - 32) else c

def lowerL (l : List Char) : List Char := l.map lowerChar

/-- Python `str.strip()` on a character list. -/
def stripL (l : List Char) : List Char :=
  ((l.dropWhile isPySpace).reverse.dropWhile isPySpace).reverse

def chars (s : String) : List Char := s.data

def ofChars (l : List Char) : String := String.mk l

def pyLower (s : String) : String := ofChars (lowerL (chars s))

def pyStrip (s : String) : String := ofChars (stripL (chars s))

/-- Python substring test `needle in hay`. -/
def subL (needle hay : List Char) : Bool :=
  hay.tails.any (fun t => needle.isPrefixOf t)

/-- `strContains hay needle` is Python `needle in hay`. -/
def strContains (hay needle : String) : Bool :=
  subL (chars needle) (chars hay)

/-- Python `hay.find(needle)`: index of the leftmost occurrence. -/
def subIndex (needle hay : List Char) : Option Nat :=
  (List.range (hay.length + 1)).find? (fun i => needle.isPrefixOf (hay.drop i))

/-- Python `hay.find(c, start)` for a single character. -/
def findCharFrom (hay : List Char) (c : Char) (start : Nat) : Option Nat :=
  ((hay.drop start).findIdx? (fun d => d = c)).map (fun j => j + start)

/-- Python `hay.find(needle, start)` for a string needle. -/
def findSubFrom (hay needle : List Char) (start : Nat) : Option Nat :=
  (subIndex needle (hay.drop start)).map (fun j => j + start)

/-- Split a character list at every occurrence of a separator character
(Python `str.split(sep)`; keeps empty pieces). -/
def splitOnChar (c : Char) : List Char → List (List Char)
  | [] => [[]]
  | x :: xs =>
    match splitOnChar c xs with
    | [] => [[]]
    | r :: rs => if x = c then [] :: r :: rs else (x :: r) :: rs

/-- Split at every character satisfying `p`, keeping empty pieces. -/
def splitPred (p : Char → Bool) : List Char → List (List Char)
  | [] => [[]]
  | x :: xs =>
    match splitPred p xs with
    | [] => [[]]
    | r :: rs => if p x then [] :: r :: rs else (x :: r) :: rs

/-- Python `str.split()` (no argument): whitespace-delimited tokens. -/
def wsTokens (l : List Char) : List (List Char) :=
  (splitPred isPySpace l).filter (fun t => t ≠ [])

def pySplitWs (s : String) : List String :=
  (wsTokens (chars s)).map ofChars

/-- Python `s.split(",")`. -/
def splitComma (s : String) : List String :=
  (splitOnChar ',' (chars s)).map ofChars

/-- Python `" ".join`/`sep.join` on a list of strings. -/
def pyJoin (sep : String) : List String → String
  | [] => ""
  | [x] => x
  | x :: xs => x ++ sep ++ pyJoin sep xs

/-- Python `str.title` (ASCII): uppercase every letter that follows a
non-letter, lowercase the other letters. -/
def titleAux : Bool → List Char → List Char
  | _, [] => []
  | prevAlpha, c :: cs =>
    let c' := if isAsciiAlpha c then
        (if prevAlpha then lowerChar c else upperChar c) else c
    c' :: titleAux (isAsciiAlpha c) cs

def pyTitleL (l : List Char) : List Char := titleAux false l

def pyTitle (s : String) : String := ofChars (pyTitleL (chars s))

/-- `re.sub(r'[,\?\.!]+$', '', s)`: drop the maximal trailing run of the
characters `, ? . !`. -/
def isTrailPunct (c : Char) : Bool := c = ',' || c = '?' || c = '.' || c = '!'

def stripTrailPunct (l : List Char) : List Char :=
  (l.reverse.dropWhile isTrailPunct).reverse

/-- Does a non-ASCII character occur (`any(ord(char) > 127 ...)`)? -/
def hasNonAscii (s : String) : Bool := (chars s).any (fun c => c.toNat > 127)

def pyStartsWith (s pre : String) : Bool := (chars pre).isPrefixOf (chars s)

def pyEndsWith (s suf : String) : Bool := (chars suf).reverse.isPrefixOf (chars s).reverse

/-! ## Regex scanning helpers

Each helper produces candidate continuations in exactly the order a
backtracking regex engine visits them. -/

/-- Flattening bind on lists, used to chain backtracking choice points. -/
def lbind {α β : Type} (l : List α) (f : α → List β) : List β :=
  (l.map f).foldr (fun a b => a ++ b) []

/-- Case-insensitive literal: consume `lit` from the front of `s`. -/
def dropLitCI : List Char → List Char → Option (List Char)
  | [], s => some s
  | _ :: _, [] => none
  | c :: cs, d :: ds =>
    if lowerChar d = lowerChar c then dropLitCI cs ds else none

def isLitPrefixCI (lit : String) (s : List Char) : Bool :=
  (dropLitCI (chars lit) s).isSome

/-- `\s+` (greedy): all suffixes obtained by consuming at least one
whitespace character, longest consumption first. -/
def wsSuffixes (s : List Char) : List (List Char) :=
  let k := (s.takeWhile isPySpace).length
  (List.range k).map (fun i => s.drop (k - i))

/-- A lazy group `(cls+?)`: nonempty splits `(group, rest)` with all group
characters satisfying `cls`, shortest group first. -/
def lazyGroupSplits (cls : Char → Bool) (s : List Char) : List (List Char × List Char) :=
  let m := (s.takeWhile cls).length
  (List.range m).map (fun i => (s.take (i + 1), s.drop (i + 1)))

/-- Regex class `[a-zA-Z\s]`. -/
def isAlphaSpace (c : Char) : Bool := isAsciiAlpha c || isPySpace c

def headIs (c : Char) (s : List Char) : Bool :=
  match s with
  | [] => false
  | d :: _ => d = c

/-- `\s+lit`: at least one whitespace character, then the literal. -/
def wsThenLit (lit : String) (s : List Char) : Bool :=
  (s.takeWhile isPySpace) ≠ [] && isLitPrefixCI lit (s.dropWhile isPySpace)

/-- `\s+n\s+`: whitespace, the letter `n`, more whitespace. -/
def wsThenNWs (s : List Char) : Bool :=
  (s.takeWhile isPySpace) ≠ [] &&
    (match dropLitCI ['n'] (s.dropWhile isPySpace) with
     | some rest => (rest.takeWhile isPySpace) ≠ []
     | none => false)

/-! ## PlacesAgent: attraction deduplication (`places_agent.py` 179-266) -/

/-- `PlacesAgent._normalize_name`: collapse whitespace runs to single
spaces (`re.sub(r'\s+', ' ', ...)`) after strip and lower. -/
def collapseWsAux : Bool → List Char → List Char
  | _, [] => []
  | inWs, c :: cs =>
    if isPySpace c then
      (if inWs then [] else [' ']) ++ collapseWsAux true cs
    else c :: collapseWsAux false cs

def collapseWs (l : List Char) : List Char := collapseWsAux false l

def normalizeName (name : String) : String :=
  ofChars (collapseWs (lowerL (stripL (chars name))))

/-- The stop-word list of `PlacesAgent._is_similar`. -/
def similarCommonWords : List String := ["the", "a", "an", "of", "in", "at"]

/-- `PlacesAgent._is_similar`. -/
def isSimilar (name1 name2 : String) : Bool :=
  let norm1 := normalizeName name1
  let norm2 := normalizeName name2
  if norm1 = norm2 then true
  else if (strContains norm2 norm1 || strContains norm1 norm2) &&
          (chars norm1).length > 3 && (chars norm2).length > 3 then true
  else
    let words1 := (pySplitWs norm1).filter (fun w => ¬ similarCommonWords.contains w)
    let words2 := (pySplitWs norm2).filter (fun w => ¬ similarCommonWords.contains w)
    if words1.length > 0 && words2.length > 0 then
      let numMatches := (words1.filter (fun w => words2.contains w)).length
      -- `matches >= min(len1, len2) * 0.7`, i.e. 10*matches >= 7*min
      decide (10 * numMatches ≥ 7 * min words1.length words2.length)
    else false

/-- Insertion-ordered dictionary update, as Python `d[k] = v`: an existing
key keeps its position, a new key is appended. -/
def dictSet (l : List (String × String)) (k v : String) : List (String × String) :=
  if l.any (fun p => p.1 = k) then
    l.map (fun p => if p.1 = k then (k, v) else p)
  else l ++ [(k, v)]

def dictDel (l : List (String × String)) (k : String) : List (String × String) :=
  l.filter (fun p => p.1 ≠ k)

/-- One step of the `_refine_places` loop body: state is
`(refined, seen_places)`. -/
def refineStep (st : List String × List (String × String)) (place : String) :
    List String × List (String × String) :=
  let refined := st.1
  let seen := st.2
  let normalized := normalizeName place
  match seen.find? (fun p => isSimilar place p.2) with
  | some (seenNorm, seenOrig) =>
    -- a similar representative exists: keep the longer name
    if (chars place).length > (chars seenOrig).length then
      let seen' := dictSet (dictDel seen seenNorm) normalized place
      ((refined.filter (fun p => p ≠ seenOrig)) ++ [place], seen')
    else (refined, seen)
  | none => (refined ++ [place], dictSet seen normalized place)

/-- `PlacesAgent.max_places`. -/
def maxPlaces : Nat := 5

/-- `PlacesAgent._refine_places`. -/
def refinePlaces (places : List String) : List String :=
  (places.foldl refineStep ([], [])).1.take maxPlaces

/-- The name extraction and final truncation of
`PlacesAgent.get_tourist_attractions` applied to the raw provider name
list (`if name and name.strip(): places.append(name.strip())`). -/
def touristAttractionsFromRaw (raw : List String) : List String :=
  let places := raw.filterMap (fun n =>
    let s := pyStrip n
    if s ≠ "" then some s else none)
  (refinePlaces places).take maxPlaces

/-- `PlacesAgent.format_places_response`. `random.choice` over the five
greeting lines is modelled by indexing with the external draw `rng`. -/
def formatPlacesResponse (places : List String) (placeName : String) (rng : Nat) : String :=
  if places.isEmpty then
    "Unfortunately, I couldn't find many tourist attractions listed for " ++ placeName ++
      ". This might be a remote location or the area may have limited tourist data available."
  else
    let greetingsL : List String :=
      [ "Here are some amazing places in " ++ placeName ++ " you shouldn't miss!",
        "Your adventure in " ++ placeName ++ " could start at these gems:",
        "Discover these must-see spots in " ++ placeName ++ ":",
        "Ready to explore " ++ placeName ++ "? Check out these places:",
        "Here are five fantastic places to visit in " ++ placeName ++ ":" ]
    let g := (greetingsL.drop (rng % 5)).headD ""
    let body := places.foldl (fun acc p => acc ++ "- " ++ p ++ "\n") (g ++ "\n\n")
    pyStrip (body ++ "\n💡 Tip: Click on any place to learn more about it!")

/-! ## WeatherAgent (`weather_agent.py`) -/

/-- The value of the `"temperature"` key produced by
`WeatherAgent.get_weather`: either a number or the string `"N/A"`
(`current.get("temperature_2m", "N/A")`). -/
inductive TempVal where
  | num (n : Int)
  | na
  deriving DecidableEq, Repr

structure WeatherResult where
  temperature : TempVal
  precipitationProbability : Int
  success : Bool
  deriving DecidableEq, Repr

/-- Exceptions that can escape the pipeline. -/
inductive PyErr where
  | typeError
  deriving DecidableEq, Repr

/-- `WeatherAgent.format_weather_response`. `temp` is never Python
`None` (the `get_weather` default is the string `"N/A"`), so the
source's `else: temp_str = "N/A"` branch is unreachable; when `temp`
is the string `"N/A"`, `round(temp)` raises `TypeError`. Provider
temperatures are modelled as integers, on which `round` is the
identity. -/
def formatWeatherResponse (weatherData : WeatherResult) (placeName : String) :
    Except PyErr String :=
  if !weatherData.success then
    .ok ("Unable to fetch weather information for " ++ placeName ++ ".")
  else
    match weatherData.temperature with
    | .na => .error .typeError
    | .num t =>
      .ok ("In " ++ placeName ++ " it's currently " ++ toString t ++ "Â°C with a chance of " ++
        toString weatherData.precipitationProbability ++ "% to rain.")

/-! ## Intent classification (`tourism_agent.py` 262-318) -/

structure Intent where
  weather : Bool
  places : Bool
  timing : Bool
  placeDetail : Bool
  deriving DecidableEq, Repr

def placeDetailKeywords : List String :=
  ["tell me about", "information about", "details about", "what is", "tell me more",
   "about", "info"]

def timingKeywords : List String :=
  ["timing", "hours", "open", "closed", "schedule", "when", "time to visit",
   "visiting hours", "opening hours"]

def weatherKeywords : List String :=
  ["temperature", "temperture", "temprature", "temp", "weather", "rain", "forecast",
   "climate", "hot", "cold", "degrees"]

def placesKeywords : List String :=
  ["places", "visit", "attractions", "tourist", "go", "see", "sightseeing", "sights",
   "landmarks", "what to see", "where to go"]

def placesPhrases : List String :=
  ["what places", "where to", "places to", "places can", "places i", "attractions"]

def tripWords : List String := ["going", "trip", "travel", "plan"]

/-- `TourismAgent.determine_intent`. The source's weather-only guard
(`if wants_weather and not wants_places: wants_places = False`) is a
no-op and is kept as a comment only. -/
def determineIntent (userInput : String) : Intent :=
  let u := pyLower userInput
  let wantsPlaceDetail := placeDetailKeywords.any (fun k => strContains u k)
  let wantsTiming := timingKeywords.any (fun k => strContains u k)
  let wantsWeather := weatherKeywords.any (fun k => strContains u k)
  let wantsPlaces0 := placesKeywords.any (fun k => strContains u k)
  let wantsPlaces := if placesPhrases.any (fun k => strContains u k) then true else wantsPlaces0
  -- if wants_weather and not wants_places: wants_places = False  (no-op)
  if !wantsWeather && !wantsPlaces && !wantsPlaceDetail then
    if tripWords.any (fun k => strContains u k) then
      { weather := true, places := true, timing := wantsTiming, placeDetail := wantsPlaceDetail }
    else if (pySplitWs u).length ≤ 3 then
      { weather := wantsWeather, places := true, timing := wantsTiming,
        placeDetail := wantsPlaceDetail }
    else
      { weather := wantsWeather, places := true, timing := wantsTiming,
        placeDetail := wantsPlaceDetail }
  else
    { weather := wantsWeather, places := wantsPlaces, timing := wantsTiming,
      placeDetail := wantsPlaceDetail }

/-! ## Greetings and goodbyes (`tourism_agent.py` 17, 364-401) -/

def greetingsList : List String :=
  ["hi", "hello", "hey", "greetings", "good morning", "good afternoon", "good evening"]

def greetingBlockers : List String :=
  ["weather", "temperature", "places", "visit", "attractions", "in ", "at "]

/-- `TourismAgent.is_greeting`. -/
def isGreeting (userInput : String) : Bool :=
  let u := pyStrip (pyLower userInput)
  if greetingBlockers.any (fun k => strContains u k) then false
  else greetingsList.any (fun g => g = u || pyStartsWith u (g ++ " "))

def goodbyePhrases : List String :=
  ["bye", "goodbye", "see you", "see ya", "farewell", "exit",
   "quit", "close", "thanks", "thank you", "thank", "thx",
   "appreciate it", "that's all", "that's it", "done", "finished"]

/-- `TourismAgent.is_goodbye`. -/
def isGoodbye (userInput : String) : Bool :=
  let u := pyStrip (pyLower userInput)
  goodbyePhrases.any (fun p => p = u || pyStartsWith u (p ++ " ") || pyEndsWith u (" " ++ p))

/-! ## Geocoding data model -/

/-- A Nominatim candidate as consumed by the core. String-valued keys
that the source reads with `.get(k, "")` are plain `String` fields (the
empty string standing for an absent key); keys whose *presence* the
source tests (`name`, `name:en`, `name_en`) are `Option String`.
`importance` is held in integer hundredths (the source compares it
only against 0.4 ... 0.8, which become 40 ... 80), and coordinates as
integers. -/
structure GeocodeInfo where
  lat : Int
  lon : Int
  typ : String                -- the "type" key
  cls : String                -- the "class" key
  importance100 : Int         -- the "importance" key, in hundredths
  displayName : String        -- the "display_name" key
  name : Option String        -- the "name" key
  nameEn : Option String      -- the "name:en" key
  nameEnAlt : Option String   -- the "name_en" key
  deriving DecidableEq, Repr

/-- The ~35-city whitelist of `TourismAgent.check_if_state_or_region`. -/
def majorCities : List String :=
  ["london", "paris", "tokyo", "baku", "istanbul", "moscow", "cairo",
   "delhi", "mumbai", "bangalore", "kolkata", "chennai", "hyderabad",
   "new york", "los angeles", "chicago", "houston", "phoenix",
   "sydney", "melbourne", "toronto", "vancouver", "montreal",
   "berlin", "madrid", "rome", "amsterdam", "vienna", "prague",
   "dubai", "riyadh", "doha", "singapore", "hong kong", "seoul",
   "beijing", "shanghai", "bangkok", "jakarta", "manila",
   "mexico city", "sao paulo", "rio de janeiro", "buenos aires",
   "lagos", "nairobi", "johannesburg", "cape town"]

def cityIndicators : List String := ["city", "town", "village", "municipality", "suburb"]

/-- `TourismAgent.check_if_state_or_region`. -/
def checkIfStateOrRegion (placeName : String) (info : GeocodeInfo) : Bool :=
  let placeType := pyLower info.typ
  let placeClass := pyLower info.cls
  let displayName := pyLower info.displayName
  let placeLower := pyLower placeName
  let normalizedPlace := pyStrip placeLower
  if majorCities.contains normalizedPlace then false
  else
    -- display_name contains "<place>," or ", <place>," within the first 50 chars
    let cityPatterns := [placeLower ++ ",", ", " ++ placeLower ++ ","]
    if cityPatterns.any (fun pat =>
        strContains displayName pat &&
          (match subIndex (chars pat) (chars displayName) with
           | some i => decide (i < 50)
           | none => false)) then false
    else if (strContains displayName "city" || strContains displayName "town") &&
            strContains displayName placeLower then false
    else if cityIndicators.any (fun ind =>
            strContains placeType ind || strContains placeClass ind) then false
    else
      -- country check
      if placeClass = "boundary" && placeType = "administrative" &&
         strContains displayName "country" && strContains displayName placeLower &&
         info.importance100 > 80 then true
      else
        -- state/province check
        if strContains placeType "administrative" && placeClass = "administrative" &&
           40 ≤ info.importance100 && info.importance100 ≤ 70 then
          let parts := splitComma displayName
          if parts.length > 1 then
            let firstPart := pyLower (pyStrip (parts.headD ""))
            if ¬ strContains firstPart placeLower then
              decide (¬ parts.any (fun part =>
                strContains part "city" || strContains part "town"))
            else false
          else false
        else false

/-- The state/region re-check `process_query` runs when a city produced
no attractions (`tourism_agent.py` 682-758): computes `is_likely_region`. -/
def isLikelyRegion (properPlaceName : String) (info : GeocodeInfo) : Bool :=
  let importance := info.importance100
  let placeType := pyLower info.typ
  let placeClass := pyLower info.cls
  let displayName := pyLower info.displayName
  let placeLower := pyLower properPlaceName
  -- Method 1: administrative boundary whose name is not in the first part
  let m1 : Bool :=
    if placeClass = "boundary" && placeType = "administrative" && importance ≥ 40 then
      let parts := splitComma displayName
      if parts.length > 1 then
        let firstPart := pyLower (pyStrip (parts.headD ""))
        -- `elif "city" in first_part or "town" in first_part: False` leaves it False
        ¬ strContains firstPart placeLower
      else false
    else false
  -- Method 2: region keywords in a later display_name part containing the name
  let regionKeywords : List String := ["state", "province", "region", "country", "republic", "kingdom"]
  let m2 : Bool :=
    if m1 then m1
    else if regionKeywords.any (fun k => strContains displayName k) then
      let parts := splitComma displayName
      if parts.length > 1 then
        let firstPart := pyLower (pyStrip (parts.headD ""))
        if ¬ strContains firstPart placeLower then
          (parts.drop 1).any (fun part =>
            strContains (pyLower part) placeLower &&
              regionKeywords.any (fun k => strContains (pyLower part) k))
        else false
      else false
    else false
  -- Method 3: important boundary with no city indicator and name not found first
  let m3 : Bool :=
    if m2 then m2
    else if importance ≥ 50 && placeClass = "boundary" &&
            ¬ strContains displayName "city" && ¬ strContains displayName "town" then
      let parts := splitComma displayName
      if parts.length ≥ 2 then
        -- found_in_first is True only when the first part containing the name is part 0
        match parts.findIdx? (fun part => strContains (pyLower part) placeLower) with
        | some 0 => false
        | _ => true
      else false
    else false
  -- very important administrative boundary appearing in the last part
  let m4 : Bool :=
    if m3 then m3
    else if importance > 70 && placeClass = "boundary" && placeType = "administrative" then
      let parts := splitComma displayName
      if parts.length ≥ 2 then
        let lastPart := pyLower (pyStrip ((parts.reverse).headD ""))
        strContains lastPart placeLower || importance > 80
      else false
    else false
  -- fixed tables of common country/state names
  let commonCountries : List String :=
    ["india", "nepal", "china", "usa", "united states", "uk", "united kingdom", "france",
     "germany", "japan", "australia", "canada", "brazil", "russia"]
  let commonStates : List String :=
    ["west bengal", "karnataka", "maharashtra", "tamil nadu", "gujarat", "rajasthan",
     "punjab", "california", "texas", "new york", "florida"]
  if commonCountries.contains placeLower || commonStates.contains placeLower then true
  else m4

/-! ## Place-name extraction (`tourism_agent.py` 19-260)

Each regex is embedded as an explicit backtracking scanner producing
candidate continuations in exactly the order Python's `re` visits
them: `re.search` tries start positions left to right, greedy `\s+`
consumes as much as possible first, the lazy capture `+?` grows from
the shortest, and alternatives are tried in written order. Since the
terminating alternation ends each pattern, the captured group is the
first (in that order) whose following text starts with any
terminator. Matching is case-insensitive (`re.IGNORECASE`) but the
group is sliced from the original, case-preserved input. -/

def searchTails {α : Type} (f : List Char → Option α) (s : List Char) : Option α :=
  s.tails.findSome? f

/-- `re.sub(r'\s+(w1|w2|...).*$', '', place)`: truncate at the first
whitespace run that is immediately followed by one of the given words
(the words all start with a letter, so within a run only its end can
start a word). -/
def trailingSub (words : List String) : List Char → List Char
  | [] => []
  | c :: rest =>
    if isPySpace c && words.any (fun w => isLitPrefixCI w (rest.dropWhile isPySpace)) then []
    else c :: trailingSub words rest

/-- `min` of the positions of the stop characters `, ? ! .` at or after
`startIdx` (`end_pos` computation shared by strategies 2 and 3). -/
def stopCharEnd (original : List Char) (startIdx : Nat) : Nat :=
  [',', '?', '!', '.'].foldl (fun endPos c =>
    match findCharFrom original c startIdx with
    | some j => if j < endPos then j else endPos
    | none => endPos) original.length

/-- `place.title() if place[0].islower() else place`. -/
def titleIfLower (place : List Char) : String :=
  if isAsciiLower (place.headD ' ') then ofChars (pyTitleL place) else ofChars place

/-- Strategy 1 terminator `(?:\s+like|\?|$|,|\.|what|where|how|and)`. -/
def pat1Term (s : List Char) : Bool :=
  wsThenLit "like" s || headIs '?' s || s.isEmpty || headIs ',' s || headIs '.' s ||
    isLitPrefixCI "what" s || isLitPrefixCI "where" s || isLitPrefixCI "how" s ||
    isLitPrefixCI "and" s

/-- `weather\s+(?:in|at|for)\s+([a-zA-Z\s]+?)(?:\s+like|\?|$|,|\.|what|where|how|and)`
anchored at the head of `s`; returns group 1. -/
def pat1At (s : List Char) : Option (List Char) :=
  ((dropLitCI (chars "weather") s).toList.foldr (fun s1 acc =>
    (lbind (wsSuffixes s1) fun s2 =>
     lbind (lbind ["in", "at", "for"] fun p => (dropLitCI (chars p) s2).toList) fun s3 =>
     lbind (wsSuffixes s3) fun s4 =>
     lbind (lazyGroupSplits isAlphaSpace s4) fun gr =>
     if pat1Term gr.2 then [gr.1] else []) ++ acc) []).head?

def s1SubWords : List String :=
  ["and", "what", "where", "how", "is", "the", "like", "can", "i", "visit", "places"]

/-- Pattern 1 of `extract_place_name`. -/
def strategy1 (original : List Char) : Option String :=
  match searchTails pat1At original with
  | none => none
  | some g =>
    let place := stripL (trailingSub s1SubWords (stripL g))
    if place.length > 2 then
      match subIndex (lowerL place) (lowerL original) with
      | some startIdx =>
        let extracted := stripL (stripTrailPunct (stripL ((original.drop startIdx).take place.length)))
        if extracted ≠ [] then some (ofChars extracted) else some (ofChars (pyTitleL place))
      | none => some (ofChars (pyTitleL place))
    else none

/-- Strategy 2 terminator
`(?:,|\?|$|what|where|how|can|i|visit|places|is|the|temperature|weather|and)`. -/
def pat2Term (s : List Char) : Bool :=
  headIs ',' s || headIs '?' s || s.isEmpty ||
    ["what", "where", "how", "can", "i", "visit", "places", "is", "the", "temperature",
     "weather", "and"].any (fun w => isLitPrefixCI w s)

/-- `in\s+([A-Za-z][a-zA-Z\s]+?)(?:...)` without the `\b`, anchored at the
head of `s`. -/
def pat2At (s : List Char) : Option (List Char) :=
  ((dropLitCI (chars "in") s).toList.foldr (fun s1 acc =>
    (lbind (wsSuffixes s1) fun s2 =>
     match s2 with
     | [] => []
     | c :: rest =>
       if isAsciiAlpha c then
         lbind (lazyGroupSplits isAlphaSpace rest) fun gr =>
           if pat2Term gr.2 then [c :: gr.1] else []
       else []) ++ acc) []).head?

/-- `re.search` for pattern 2, honouring the leading `\b`. -/
def searchPat2 (cs : List Char) : Option (List Char) :=
  (List.range cs.length).findSome? fun i =>
    if decide (i = 0) || !(isWordChar (((cs.drop (i - 1)).headD ' '))) then
      pat2At (cs.drop i)
    else none

def s2SubWords : List String :=
  ["and", "what", "where", "how", "can", "i", "visit", "places", "is", "the",
   "temperature", "weather", "like"]

/-- Pattern 2 of `extract_place_name` (`In [Place], ...`). -/
def strategy2 (original : List Char) : Option String :=
  match searchPat2 original with
  | none => none
  | some g =>
    let place := stripL (trailingSub s2SubWords (stripL g))
    if place.length > 2 then
      match subIndex (lowerL place) (lowerL original) with
      | some startIdx =>
        let endPos := stopCharEnd original startIdx
        let extracted := stripL (stripTrailPunct (stripL ((original.drop startIdx).take (endPos - startIdx))))
        if extracted ≠ [] then some (ofChars extracted) else some (ofChars (stripL place))
      | none => some (ofChars (stripL place))
    else none

/-- Strategy 3 terminator `(?:\?|$|,|\.|what|where|how|and)`. -/
def pat3Term (s : List Char) : Bool :=
  headIs '?' s || s.isEmpty || headIs ',' s || headIs '.' s ||
    isLitPrefixCI "what" s || isLitPrefixCI "where" s || isLitPrefixCI "how" s ||
    isLitPrefixCI "and" s

/-- The optional `(?:to\s+visit\s+)?` (greedy: with the group first). -/
def optToVisit (s : List Char) : List (List Char) :=
  (lbind (dropLitCI (chars "to") s).toList fun t1 =>
   lbind (wsSuffixes t1) fun t2 =>
   lbind (dropLitCI (chars "visit") t2).toList fun t3 =>
   wsSuffixes t3) ++ [s]

/-- The preposition alternation `(?:in|at|for|to|i\s+can\s+go\s+to)`. -/
def prep3Conts (s : List Char) : List (List Char) :=
  (lbind ["in", "at", "for", "to"] fun p => (dropLitCI (chars p) s).toList) ++
  (lbind (dropLitCI (chars "i") s).toList fun t1 =>
   lbind (wsSuffixes t1) fun t2 =>
   lbind (dropLitCI (chars "can") t2).toList fun t3 =>
   lbind (wsSuffixes t3) fun t4 =>
   lbind (dropLitCI (chars "go") t4).toList fun t5 =>
   lbind (wsSuffixes t5) fun t6 =>
   (dropLitCI (chars "to") t6).toList)

/-- `places\s+(?:to\s+visit\s+)?(?:in|at|for|to|i\s+can\s+go\s+to)\s+([a-zA-Z\s]+?)(?:...)`. -/
def pat3At (s : List Char) : Option (List Char) :=
  ((dropLitCI (chars "places") s).toList.foldr (fun s1 acc =>
    (lbind (wsSuffixes s1) fun s2 =>
     lbind (optToVisit s2) fun s3 =>
     lbind (prep3Conts s3) fun s4 =>
     lbind (wsSuffixes s4) fun s5 =>
     lbind (lazyGroupSplits isAlphaSpace s5) fun gr =>
     if pat3Term gr.2 then [gr.1] else []) ++ acc) []).head?

/-- The secondary sub-rule `places\s+(?:to\s+visit\s+)?for\s+([a-zA-Z\s]+?)(?:...)`. -/
def pat3bAt (s : List Char) : Option (List Char) :=
  ((dropLitCI (chars "places") s).toList.foldr (fun s1 acc =>
    (lbind (wsSuffixes s1) fun s2 =>
     lbind (optToVisit s2) fun s3 =>
     lbind (dropLitCI (chars "for") s3).toList fun s4 =>
     lbind (wsSuffixes s4) fun s5 =>
     lbind (lazyGroupSplits isAlphaSpace s5) fun gr =>
     if pat3Term gr.2 then [gr.1] else []) ++ acc) []).head?

def s3SubWordsA : List String :=
  ["and", "for", "what", "where", "how", "can", "i", "visit", "places", "is", "the", "like"]

def s3SubWordsB : List String :=
  ["and", "what", "where", "how", "can", "i", "visit", "places", "is", "the", "like"]

/-- Pattern 3 of `extract_place_name` (`places to visit in [place]`). -/
def strategy3 (original : List Char) : Option String :=
  match searchTails pat3At original with
  | none => none
  | some g =>
    let place0 := stripL (trailingSub s3SubWordsA (stripL g))
    let place :=
      if lowerL place0 = chars "for" then
        match searchTails pat3bAt original with
        | some g2 => stripL (trailingSub s3SubWordsB (stripL g2))
        | none => place0
      else place0
    if place.length > 2 then
      match subIndex (lowerL place) (lowerL original) with
      | some startIdx =>
        let endPos := stopCharEnd original startIdx
        let extracted := stripL (stripTrailPunct (stripL ((original.drop startIdx).take (endPos - startIdx))))
        if extracted ≠ [] then some (ofChars extracted) else some (ofChars (pyTitleL place))
      | none => some (ofChars (pyTitleL place))
    else none

def s4Patterns : List String := ["going to go to", "going to", "travel to", "trip to"]

def s4StopWords : List String :=
  ["let's", "let", "plan", "my", "trip", "what", "is", "the", "temperature", "there",
   "and", "are", "places", "i", "can", "visit", "show", "me", "like"]

/-- Pattern 4 of `extract_place_name` (travel-phrase prefixes). -/
def strategy4 (original : List Char) : Option String :=
  let userLower := lowerL original
  s4Patterns.findSome? fun pat =>
    match subIndex (chars pat) userLower with
    | none => none
    | some i =>
      -- user_lower.split(pattern, 1)[1]
      let part1 := userLower.drop (i + (chars pat).length)
      -- re.sub(r'[,\.\?\!].*$', '', place).strip()
      let place := stripL ((stripL part1).takeWhile (fun c => ¬ isTrailPunct c))
      let words := wsTokens place
      let filtered := words.takeWhile (fun w => ¬ s4StopWords.contains (ofChars w))
      if filtered ≠ [] then
        let filteredLower := filtered.map lowerL
        let matched := (wsTokens original).filter (fun ow => filteredLower.contains (lowerL ow))
        if matched ≠ [] then some (pyJoin " " (matched.map ofChars))
        else some (pyTitle (pyJoin " " (filtered.map ofChars)))
      else none

/-- Strategy 5 terminator `(?:\s+and|\s+n\s+|\s+places|\?|$|,|\.)`. -/
def pat5Term (s : List Char) : Bool :=
  wsThenLit "and" s || wsThenNWs s || wsThenLit "places" s || headIs '?' s ||
    s.isEmpty || headIs ',' s || headIs '.' s

/-- `temperature\s+(?:of|in|at)\s+([a-zA-Z\s]+?)(?:\s+and|\s+n\s+|\s+places|\?|$|,|\.)`. -/
def pat5At (s : List Char) : Option (List Char) :=
  ((dropLitCI (chars "temperature") s).toList.foldr (fun s1 acc =>
    (lbind (wsSuffixes s1) fun s2 =>
     lbind (lbind ["of", "in", "at"] fun p => (dropLitCI (chars p) s2).toList) fun s3 =>
     lbind (wsSuffixes s3) fun s4 =>
     lbind (lazyGroupSplits isAlphaSpace s4) fun gr =>
     if pat5Term gr.2 then [gr.1] else []) ++ acc) []).head?

def s5SubWords : List String := ["and", "n", "places", "visit", "there", "to", "the"]

def s5StopStrings : List String := [" and", " n ", " places", " visit", " there"]

/-- Pattern 5 of `extract_place_name` (`temperature of [place]`). -/
def strategy5 (original : List Char) : Option String :=
  match searchTails pat5At original with
  | none => none
  | some g =>
    let place := stripL (trailingSub s5SubWords (stripL g))
    if place.length > 2 then
      let oLower := lowerL original
      match subIndex (lowerL place) oLower with
      | some startIdx =>
        let endPos := s5StopStrings.foldl (fun endPos sw =>
          match findSubFrom oLower (chars sw) startIdx with
          | some j => if j < endPos then j else endPos
          | none => endPos) original.length
        let extracted := stripL ((original.drop startIdx).take (endPos - startIdx))
        if extracted ≠ [] then some (ofChars extracted) else some (ofChars (pyTitleL place))
      | none => some (ofChars (pyTitleL place))
    else none

/-- The keyword alternatives of strategy 6
(`temperat?u?r?e?|weather|places|visit|attractions|tourist`); for the
terminator a prefix test on the literal part `tempera` is exact, since
the optional letters and the pattern end right after. -/
def kw6Simple (s : List Char) : Bool :=
  ["tempera", "weather", "places", "visit", "attractions", "tourist"].any
    (fun w => isLitPrefixCI w s)

/-- `^([A-Za-z][a-zA-Z\s]+?)\s+(?:temperat?u?r?e?|weather|places|visit|attractions|tourist|\s+n\s+)`,
anchored at the start. -/
def pat6 (cs : List Char) : Option (List Char) :=
  match cs with
  | [] => none
  | c :: rest =>
    if isAsciiAlpha c then
      ((lbind (lazyGroupSplits isAlphaSpace rest) fun gr =>
        lbind (wsSuffixes gr.2) fun r2 =>
        if kw6Simple r2 || wsThenNWs r2 then [c :: gr.1] else []).head?)
    else none

/-- The post-match keyword search of strategy 6
(`\s+(?:temperat?u?r?e?|...|tourist|\s+n\s+|\s+and\s+)` over
`original_lower[start_idx:]`): leftmost match start. -/
def findKw6 (s : List Char) : Option Nat :=
  (List.range s.length).find? fun j =>
    let t := s.drop j
    match t with
    | [] => false
    | c :: _ =>
      isPySpace c &&
        (let run := t.takeWhile isPySpace
         let after := t.dropWhile isPySpace
         kw6Simple after ||
           (decide (run.length ≥ 2) &&
             ((match dropLitCI ['n'] after with
               | some r => (r.takeWhile isPySpace) ≠ []
               | none => false) ||
              (match dropLitCI (chars "and") after with
               | some r => (r.takeWhile isPySpace) ≠ []
               | none => false))))

/-- Pattern 6 of `extract_place_name` (place name followed by a keyword). -/
def strategy6 (original : List Char) : Option String :=
  match pat6 original with
  | none => none
  | some g =>
    let place := stripL (stripL g)
    if place.length > 2 then
      let oLower := lowerL original
      match subIndex (lowerL place) oLower with
      | some startIdx =>
        match findKw6 (oLower.drop startIdx) with
        | some j =>
          let extracted := stripL ((original.drop startIdx).take j)
          if extracted ≠ [] then some (ofChars extracted) else some (ofChars (pyTitleL place))
        | none =>
          let extracted := stripL ((original.drop startIdx).take place.length)
          if extracted ≠ [] then some (ofChars extracted) else some (ofChars (pyTitleL place))
      | none => some (ofChars (pyTitleL place))
    else none

def commonWords7 : List String :=
  ["what", "where", "how", "when", "why", "the", "a", "an", "is", "are", "can", "i", "more"]

/-- Pattern 7 of `extract_place_name` (bare place name, possibly with one
keyword token). -/
def strategy7 (original : List Char) : Option String :=
  let words := wsTokens original
  if words.length = 1 ||
     (words.length = 2 &&
       ["temperature", "weather", "places", "?"].contains (ofChars (lowerL ((words.drop 1).headD [])))) then
    let place := stripL (stripTrailPunct (words.headD []))
    if place.length > 2 && isAsciiAlpha (place.headD ' ') then
      if ¬ commonWords7.contains (ofChars (lowerL place)) then some (titleIfLower place)
      else none
    else none
  else none

/-- `^([A-Za-z][a-zA-Z\s]+?)(?:\?|!|$)`, anchored at the start. -/
def pat8 (cs : List Char) : Option (List Char) :=
  match cs with
  | [] => none
  | c :: rest =>
    if isAsciiAlpha c then
      ((lbind (lazyGroupSplits isAlphaSpace rest) fun gr =>
        if headIs '?' gr.2 || headIs '!' gr.2 || gr.2.isEmpty then [c :: gr.1] else []).head?)
    else none

/-- Pattern 8 of `extract_place_name`. -/
def strategy8 (original : List Char) : Option String :=
  let words := wsTokens original
  match pat8 original with
  | none => none
  | some g =>
    if words.length ≤ 2 then
      let place := stripL (stripTrailPunct (stripL g))
      if place.length > 2 then
        if ¬ commonWords7.contains (ofChars (lowerL place)) then some (titleIfLower place)
        else none
      else none
    else none

def s9StopWords : List String :=
  ["what", "is", "the", "weather", "in", "at", "for", "like", "places", "to", "visit",
   "can", "i", "go", "temperature", "more", "and", "n", "there", "also"]

/-- The accumulation loop of pattern 9 (maximal run of capitalized
words, stopping at stop words). -/
def strategy9Loop (acc : List (List Char)) : List (List Char) → List (List Char)
  | [] => acc
  | w :: ws =>
    let wl := ofChars (lowerL w)
    if s9StopWords.contains wl then
      (if acc ≠ [] then acc else strategy9Loop acc ws)
    else if w ≠ [] && isAsciiUpper (w.headD ' ') && w.all isAsciiAlpha then
      strategy9Loop (acc ++ [w]) ws
    else if acc ≠ [] && w.all isAsciiAlpha && ¬ s9StopWords.contains wl then
      strategy9Loop (acc ++ [w]) ws
    else if acc ≠ [] then acc
    else strategy9Loop acc ws

/-- Pattern 9 of `extract_place_name`. -/
def strategy9 (original : List Char) : Option String :=
  let r := strategy9Loop [] (wsTokens original)
  if r ≠ [] then some (pyJoin " " (r.map ofChars)) else none

def commonWords10 : List String :=
  ["what", "where", "how", "when", "why", "the", "a", "an", "is", "are", "can", "i",
   "more", "temperature", "weather", "places", "visit", "and", "n", "there", "also"]

/-- Pattern 10 of `extract_place_name` (first plausible token; the
source's look-ahead at the following word returns the same value in
both of its branches, so it is not reproduced). -/
def strategy10 (original : List Char) : Option String :=
  (wsTokens original).findSome? fun w =>
    let cleaned := stripL (stripTrailPunct w)
    if decide (cleaned.length ≥ 3) && isAsciiAlpha (cleaned.headD ' ') &&
       ¬ commonWords10.contains (ofChars (lowerL cleaned)) then
      some (titleIfLower cleaned)
    else none

/-- `TourismAgent.extract_place_name`: the ordered cascade. -/
def extractPlaceName (userInput : String) : Option String :=
  let original := chars userInput
  (strategy1 original) <|> (strategy2 original) <|> (strategy3 original) <|>
  (strategy4 original) <|> (strategy5 original) <|> (strategy6 original) <|>
  (strategy7 original) <|> (strategy8 original) <|> (strategy9 original) <|>
  (strategy10 original)

/-! ## Place-detail extraction (`tourism_agent.py` 320-362) -/

/-- Terminator `(?:\?|$|\.|,|please)` of the detail patterns. -/
def patDetailTerm (s : List Char) : Bool :=
  headIs '?' s || s.isEmpty || headIs '.' s || headIs ',' s || isLitPrefixCI "please" s

/-- `lit(.+?)(?:\?|$|\.|,|please)` anchored at the head of `s` (`.` is
any character but a newline). -/
def detailSimpleAt (lit : String) (s : List Char) : Option (List Char) :=
  ((dropLitCI (chars lit) s).toList.foldr (fun s1 acc =>
    (lbind (lazyGroupSplits (fun c => c ≠ '\n') s1) fun gr =>
     if patDetailTerm gr.2 then [gr.1] else []) ++ acc) []).head?

/-- `tell me (?:more )?about (.+?)(?:\?|$|\.|,|please)` anchored at the
head of `s`. -/
def detailP1At (s : List Char) : Option (List Char) :=
  ((dropLitCI (chars "tell me ") s).toList.foldr (fun s1 acc =>
    (lbind ((dropLitCI (chars "more ") s1).toList ++ [s1]) fun s2 =>
     lbind (dropLitCI (chars "about ") s2).toList fun s3 =>
     lbind (lazyGroupSplits (fun c => c ≠ '\n') s3) fun gr =>
     if patDetailTerm gr.2 then [gr.1] else []) ++ acc) []).head?

def detailSubWords : List String :=
  ["please", "thanks", "thank you", "tell me", "more", "info"]

/-- `TourismAgent.extract_place_detail_query`. -/
def extractPlaceDetailQuery (userInput : String) : Option String :=
  let original := chars userInput
  let pats : List (List Char → Option (List Char)) :=
    [detailP1At, detailSimpleAt "information about ", detailSimpleAt "details about ",
     detailSimpleAt "what is ", detailSimpleAt "tell me ", detailSimpleAt "about ",
     detailSimpleAt "info "]
  match pats.findSome? (fun pAt =>
      match searchTails pAt original with
      | some g =>
        let place := stripL (trailingSub detailSubWords (stripL g))
        if place.length > 2 then some (ofChars place) else none
      | none => none) with
  | some r => some r
  | none =>
    let words := wsTokens original
    if 2 ≤ words.length && words.length ≤ 5 then
      let caps := words.filter (fun w => w ≠ [] && isAsciiUpper (w.headD ' '))
      if caps ≠ [] then some (pyJoin " " (caps.map ofChars)) else none
    else none

/-! ## Geocode candidate scoring (`places_agent.py` 34-177) -/

/-- The smaller major-city set of `get_coordinates_with_details`. -/
def geocodeMajorCities : List String :=
  ["london", "paris", "tokyo", "baku", "istanbul", "moscow", "cairo"]

/-- The candidate score of `get_coordinates_with_details`, held in
hundredths (the source adds `importance * 10` to integer base scores;
with `importance` in hundredths every score is `100 ×` the source's). -/
def scoreLocation (placeLower : String) (loc : GeocodeInfo) : Int :=
  let placeType := pyLower loc.typ
  let placeClass := pyLower loc.cls
  let displayName := pyLower loc.displayName
  let importance := loc.importance100
  let base : Int :=
    if placeType = "city" || placeType = "town" then 100
    else if placeType = "village" then 50
    else if placeClass = "place" then 75
    else if placeClass = "boundary" && placeType = "administrative" then
      (if geocodeMajorCities.contains placeLower then 90
       else if importance > 60 then 80
       else if strContains displayName "city" || strContains displayName "town" then 70
       else if importance > 40 then 60
       else 20)
    else 0
  let score := base * 100 + importance * 10
  if displayName ≠ "" && strContains displayName placeLower then
    (if strContains (pyStrip ((splitComma displayName).headD "")) placeLower then score + 1500
     else score)
  else score

/-- The best-candidate fold (`best_score` starts at `-1`, strict
improvement only, so the first of equal scores wins); the
`if not best_location` fallback to `data[0]`. -/
def pickBest (placeLower : String) (data : List GeocodeInfo) : Option GeocodeInfo :=
  match data with
  | [] => none
  | d0 :: _ =>
    let best := (data.foldl (fun acc loc =>
      let sc := scoreLocation placeLower loc
      if sc > acc.2 then (some loc, sc) else acc)
      ((none : Option GeocodeInfo), (-100 : Int))).1
    some (best.getD d0)

/-- The post-selection English-name substitution
(`places_agent.py` 137-163), which rewrites the `name` key. -/
def normalizeSelectedName (loc : GeocodeInfo) : GeocodeInfo :=
  let displayName := loc.displayName
  let name := loc.name.getD ""
  match loc.nameEn with
  | some en => { loc with name := some en }
  | none =>
    if name ≠ "" && !hasNonAscii name then loc
    else if displayName ≠ "" then
      let firstPart := pyStrip ((splitComma displayName).headD "")
      if hasNonAscii firstPart then
        match ([loc.nameEn, loc.nameEnAlt, loc.name].findSome? (fun o =>
            match o with
            | some v => if v ≠ "" && !hasNonAscii v then some v else none
            | none => none)) with
        | some alt => { loc with name := some alt }
        | none => loc
      else loc
    else loc

/-! ## Provider environment -/

/-- The raw `"current"` block of an Open-Meteo response (fields may be
absent). -/
structure RawCurrent where
  temperature2m : Option Int
  precipitationProbability : Option Int
  deriving DecidableEq, Repr

/-- A place-detail record as assembled by
`PlacesAgent.get_place_details` (pure provider interaction, treated as
an external collaborator per the spec's §6): the `name`,
`display_name` keys are always set; the optional tag-derived fields
may be absent or empty. -/
structure PlaceDetails where
  name : String
  displayName : String
  description : Option String
  website : Option String
  phone : Option String
  openingHours : Option String
  fee : Option String
  historic : Option String
  heritage : Option String
  deriving DecidableEq, Repr

/-- The external collaborators for one query: each field is the
response of the corresponding provider call (`none` = transport/parse
failure or no data, which each agent catches at its boundary). -/
structure Env where
  geocodeResp : Option (List GeocodeInfo)
  weatherResp : Option RawCurrent
  placesResp : Option (List String)
  detailsResp : Option PlaceDetails

/-- `PlacesAgent.get_coordinates_with_details`: select the best
candidate, substitute an English name, return coordinates and the
(mutated) candidate record. -/
def getCoordinatesWithDetails (env : Env) (placeName : String) :
    Option (Int × Int × GeocodeInfo) :=
  match env.geocodeResp with
  | none => none
  | some data =>
    if data.isEmpty then none
    else
      let placeLower := pyStrip (pyLower placeName)
      match pickBest placeLower data with
      | none => none
      | some loc =>
        let loc' := normalizeSelectedName loc
        some (loc'.lat, loc'.lon, loc')

/-- `WeatherAgent.get_weather`: package the current block, defaulting a
missing temperature to the string `"N/A"` and a missing precipitation
probability to `0`. -/
def getWeather (env : Env) (_lat _lon : Int) : Option WeatherResult :=
  match env.weatherResp with
  | none => none
  | some raw =>
    some { temperature := match raw.temperature2m with
             | some n => TempVal.num n
             | none => TempVal.na
           precipitationProbability := raw.precipitationProbability.getD 0
           success := true }

/-- `PlacesAgent.get_tourist_attractions`: a failed request yields `[]`. -/
def getTouristAttractions (env : Env) (_lat _lon : Int) : List String :=
  match env.placesResp with
  | none => []
  | some raw => touristAttractionsFromRaw raw

/-! ## Response composition (`tourism_agent.py` 541-786) -/

def detailVal (o : Option String) : String := o.getD ""

def detailHas (o : Option String) : Bool := detailVal o ≠ ""

/-- `PlacesAgent.format_place_details_response`. -/
def formatPlaceDetailsResponse (details : PlaceDetails) : String :=
  let name := details.name
  let r0 := "**" ++ name ++ "**\n\n"
  let r1 := if detailHas details.description then
      r0 ++ detailVal details.description ++ "\n\n" else r0
  let displayName := details.displayName
  let r2 :=
    if displayName ≠ "" then
      let parts := splitComma displayName
      let location0 := pyStrip (parts.headD "")
      let location :=
        if parts.length > 1 then location0 ++ ", " ++ pyStrip ((parts.drop 1).headD "")
        else location0
      r1 ++ "📍 Location: " ++ location ++ "\n\n"
    else r1
  let r3 := if detailHas details.openingHours then
      r2 ++ "🕐 Opening Hours: " ++ detailVal details.openingHours ++ "\n\n" else r2
  let r4 := if detailHas details.fee then
      r3 ++ "💰 Admission: " ++ detailVal details.fee ++ "\n\n" else r3
  let r5 :=
    if detailHas details.heritage then
      r4 ++ "🏛️ Heritage Status: " ++ detailVal details.heritage ++ "\n\n"
    else if detailHas details.historic then
      r4 ++ "🏛️ Historic Site: " ++ detailVal details.historic ++ "\n\n"
    else r4
  let r6 := if detailHas details.website then
      r5 ++ "🌐 Website: " ++ detailVal details.website ++ "\n\n" else r5
  let r7 :=
    if r6 = "**" ++ name ++ "**\n\n" then
      let extra := name ++ " is a notable tourist attraction"
      let extra2 :=
        if displayName ≠ "" then
          extra ++ " located in " ++ pyStrip ((splitComma displayName).headD "")
        else extra
      r6 ++ extra2 ++ "."
    else r6
  pyStrip r7

/-- `re.sub(r'\s*\([^)]+\)\s*$', '', s)` matcher at one position. -/
def matchParenAt (t : List Char) : Bool :=
  match t.dropWhile isPySpace with
  | '(' :: rest =>
    let content := rest.takeWhile (fun c => c ≠ ')')
    (content ≠ []) &&
      (match rest.dropWhile (fun c => c ≠ ')') with
       | ')' :: tail => tail.all isPySpace
       | _ => false)
  | _ => false

/-- `re.sub(r'\s*\([^)]+\)\s*$', '', s).strip()`: drop a trailing
parenthesized suffix such as `" (urban)"`. -/
def stripParenSuffix (s : String) : String :=
  let cs := chars s
  match (List.range cs.length).find? (fun p => matchParenAt (cs.drop p)) with
  | some p => ofChars (stripL (cs.take p))
  | none => ofChars (stripL cs)

/-- The `proper_place_name` computation of `process_query`
(`tourism_agent.py` 625-648). -/
def computeProperName (info : GeocodeInfo) (placeName : String) : String :=
  let v1 := info.nameEn.getD ""
  let v2 := info.nameEnAlt.getD ""
  let proper0 := if v1 ≠ "" then v1 else if v2 ≠ "" then v2 else info.name.getD placeName
  let proper1 :=
    if proper0 ≠ "" && hasNonAscii proper0 then
      (if info.displayName ≠ "" then
        match (splitComma info.displayName).findSome? (fun part =>
            let p := pyStrip part
            if p ≠ "" && !hasNonAscii p then some p else none) with
        | some p => p
        | none => proper0
      else proper0)
    else proper0
  let proper2 := if proper1 ≠ "" then stripParenSuffix proper1 else proper1
  if (chars proper2).length < 2 then pyTitle placeName else proper2

def goodbyeMsg : String :=
  "👋 Goodbye! It was great helping you plan your trip. Safe travels and enjoy your journey! 🌍✈️"

def greetingResponse (hour : Nat) : String :=
  let timeGreeting :=
    if hour < 12 then "Good morning" else if hour < 18 then "Good afternoon" else "Good evening"
  timeGreeting ++ "! 👋 I'm your travel planning assistant!\n\n" ++
    "I can help you with:\n" ++
    "- 🌤️ Current weather and forecasts\n" ++
    "- 📍 Must-see attractions and hidden gems\n\n" ++
    "Where would you like to explore? Try asking:\n" ++
    "- 'What's the weather in Bangalore?'\n" ++
    "- 'What places can I visit in Paris?'\n" ++
    "- 'Tell me about Tokyo - weather and places!'"

def shortInputMsg : String :=
  "I need more information to help you. Please tell me:\n" ++
    "- A place name (e.g., 'Bangalore', 'Paris', 'New York')\n" ++
    "- What you'd like to know (weather, places to visit, or both)"

def timingMsg : String :=
  "I understand you're asking about visiting hours or timings. Unfortunately, the data source I use (Overpass API) doesn't provide timing information for tourist attractions.\n\n" ++
    "For visiting hours, I recommend:\n" ++
    "- Checking the official website of the attraction\n" ++
    "- Using Google Maps or similar services\n" ++
    "- Contacting local tourism offices\n\n" ++
    "I can still help you with weather information and suggest places to visit!"

def detailUnavailableMsg (placeDetailName : String) : String :=
  "Sorry, detailed information about '" ++ placeDetailName ++
    "' is not currently available. Please try asking about a different place or check the official website for more information."

def detailPromptMsg : String :=
  "I'd be happy to provide information about a specific place! Please tell me which tourist attraction you'd like to know more about. For example: 'Tell me about Qutub Minar' or 'What is the Eiffel Tower?'"

def noPlaceMsg : String :=
  "I couldn't find a valid place name in your query. Please provide a place name like:\n" ++
    "- 'Dubai'\n" ++
    "- 'Dubai temperature'\n" ++
    "- 'What's the weather in Paris?'\n" ++
    "- 'In Bangalore, what places can I visit?'\n" ++
    "- 'Show me places to visit in Tokyo'"

def unknownPlaceMsg (placeName : String) : String :=
  "I don't know if '" ++ placeName ++ "' exists. Could you please provide a valid place name?"

def regionMsg (properPlaceName : String) : String :=
  "I found '" ++ properPlaceName ++
    "', but it appears to be a country, state, or region rather than a specific city.\n\n" ++
    "Please specify a city within " ++ properPlaceName ++
    " for more accurate weather and attraction information.\n\n" ++
    "For example:\n" ++
    "- If you meant Karnataka, try 'Bangalore' or 'Mysore'\n" ++
    "- If you meant California, try 'Los Angeles' or 'San Francisco'\n" ++
    "- If you meant India, try 'Mumbai' or 'Delhi'"

def regionMsg2 (properPlaceName : String) : String :=
  "I found '" ++ properPlaceName ++
    "', but it appears to be a country, state, or region rather than a specific city.\n\n" ++
    "Please enter a city name instead. For example, if you're looking for places in " ++
    properPlaceName ++ ", try:\n" ++
    "- 'Mumbai' or 'Delhi' (for India)\n" ++
    "- 'Kolkata' or 'Darjeeling' (for West Bengal)\n" ++
    "- 'Los Angeles' or 'San Francisco' (for California)"

def noAttractionDataMsg (properPlaceName : String) : String :=
  "Sorry, detailed tourist attraction data is not currently available for " ++
    properPlaceName ++ ". Please try searching for a nearby major city or a different location."

/-- The response-combination tail of `process_query`
(`tourism_agent.py` 770-786). -/
def combineResponses (responses : List String) (properPlaceName : String) : String :=
  match responses with
  | [] => "Unable to fetch information for " ++ properPlaceName ++
      ". Please try rephrasing your query."
  | [r0, r1] =>
    let weatherResp := if strContains r0 "currently" then r0 else r1
    let placesResp := if strContains r0 "currently" then r1 else r0
    if strContains weatherResp "currently" && strContains placesResp "places you can go" then
      let placesResp2 :=
        if pyStartsWith placesResp "In " then "in " ++ ofChars ((chars placesResp).drop 3)
        else placesResp
      weatherResp ++ ". And " ++ placesResp2
    else pyJoin " " [r0, r1]
  | rs => pyJoin " " rs

/-- The body of `process_query` after the goodbye/greeting
short-circuits; `rng` is the `random.choice` draw used by
`format_places_response`. The clock hour is not read here (only the
greeting branch is time-of-day dependent). -/
def mainPipeline (env : Env) (rng : Nat) (userInput : String) : Except PyErr String :=
  if (chars userInput).length < 3 then .ok shortInputMsg
  else
    let intentCheck := determineIntent userInput
    if intentCheck.timing then .ok timingMsg
    else if intentCheck.placeDetail then
      match extractPlaceDetailQuery userInput with
      | some placeDetailName =>
        (match env.detailsResp with
         | some details => .ok (formatPlaceDetailsResponse details)
         | none => .ok (detailUnavailableMsg placeDetailName))
      | none => .ok detailPromptMsg
    else
      match extractPlaceName userInput with
      | none => .ok noPlaceMsg
      | some placeName =>
        match getCoordinatesWithDetails env placeName with
        | none => .ok (unknownPlaceMsg placeName)
        | some (lat, lon, info) =>
          let properPlaceName := computeProperName info placeName
          if checkIfStateOrRegion properPlaceName info then .ok (regionMsg properPlaceName)
          else
            let intent := determineIntent userInput
            let weatherResponses : Except PyErr (List String) :=
              if intent.weather then
                match getWeather env lat lon with
                | some weatherData =>
                  (formatWeatherResponse weatherData properPlaceName).map (fun s => [s])
                | none => .ok []
              else .ok []
            match weatherResponses with
            | .error e => .error e
            | .ok responses0 =>
              if intent.places then
                let places := getTouristAttractions env lat lon
                if ¬ places.isEmpty then
                  .ok (combineResponses
                    (responses0 ++ [formatPlacesResponse places properPlaceName rng])
                    properPlaceName)
                else
                  -- places requested but none found: run the region re-check
                  -- (`is_state_or_region` is necessarily False on this path)
                  if isLikelyRegion properPlaceName info then .ok (regionMsg2 properPlaceName)
                  else .ok (noAttractionDataMsg properPlaceName)
              else .ok (combineResponses responses0 properPlaceName)

/-- `TourismAgent.process_query`. `hour` is the ambient clock hour read
by the greeting branch; `rng` the `random.choice` draw; an `Except.error`
is a Python exception escaping the method. -/
def processQuery (env : Env) (hour rng : Nat) (userInput0 : String) : Except PyErr String :=
  let userInput := pyStrip userInput0
  if isGoodbye userInput then .ok goodbyeMsg
  else if isGreeting userInput then .ok (greetingResponse hour)
  else mainPipeline env rng userInput

/-! ## Concrete fixtures used by the claim theorems -/

/-- A Nominatim candidate for Paris (city-typed, importance 0.80). -/
def parisInfo : GeocodeInfo :=
  { lat := 48, lon := 2, typ := "city", cls := "place", importance100 := 80,
    displayName := "Paris, Ile-de-France, Metropolitan France, France",
    name := some "Paris", nameEn := none, nameEnAlt := none }

/-- Providers succeed: weather 18 °C / 0 %, two attractions. -/
def envParis : Env :=
  { geocodeResp := some [parisInfo],
    weatherResp := some { temperature2m := some 18, precipitationProbability := some 0 },
    placesResp := some ["Louvre Museum", "Eiffel Tower"],
    detailsResp := none }

/-- Providers as in `envParis`, but the weather current block lacks the
`temperature_2m` field (so `get_weather` substitutes the string `"N/A"`). -/
def envNoTemp : Env :=
  { geocodeResp := some [parisInfo],
    weatherResp := some { temperature2m := none, precipitationProbability := some 30 },
    placesResp := some [],
    detailsResp := none }

/-- All providers fail. -/
def envEmpty : Env :=
  { geocodeResp := none, weatherResp := none, placesResp := none, detailsResp := none }

/-- The weather text produced for `envParis`. -/
def parisWeatherText : String :=
  "In Paris it's currently 18Â°C with a chance of 0% to rain."

/-- The places text produced for `envParis` with draw 0. -/
def parisPlacesText0 : String :=
  "Here are some amazing places in Paris you shouldn't miss!\n\n- Louvre Museum\n- Eiffel Tower\n\n💡 Tip: Click on any place to learn more about it!"

/-- The places text produced for `envParis` with draw 1. -/
def parisPlacesText1 : String :=
  "Your adventure in Paris could start at these gems:\n\n- Louvre Museum\n- Eiffel Tower\n\n💡 Tip: Click on any place to learn more about it!"

/-- The spec's example geocode record for Karnataka (`type="administrative"`,
`class="boundary"`, importance 0.75, `displayName="Karnataka, India"`). -/
def karnatakaInfo : GeocodeInfo :=
  { lat := 15, lon := 75, typ := "administrative", cls := "boundary", importance100 := 75,
    displayName := "Karnataka, India",
    name := some "Karnataka", nameEn := none, nameEnAlt := none }

/-- The spec's example geocode record for London (`type="administrative"`,
importance 0.9). -/
def londonInfo : GeocodeInfo :=
  { lat := 51, lon := 0, typ := "administrative", cls := "boundary", importance100 := 90,
    displayName := "London, Greater London, England, United Kingdom",
    name := some "London", nameEn := none, nameEnAlt := none }

end Tourism

namespace Tourism

/-! ## Claim theorems -/

/-- **C1, counterexample.** With both a weather and a places response
produced (the spec's example texts: weather `"In Paris it's currently
18°C..."`, places `"Here are some amazing places in Paris..."`),
`process_query` joins them with a single space — not as
`"<weather>. And <places>"` with a lower-cased `"in"` as the claim
states: the `". And"` path is guarded by `"places you can go" in
places_resp`, which the places text never contains. -/
theorem C1_counterexample :
    processQuery envParis 12 0 "weather in Paris and places to visit" =
      .ok (parisWeatherText ++ " " ++ parisPlacesText0) ∧
    parisWeatherText ++ " " ++ parisPlacesText0 ≠
      parisWeatherText ++ ". And " ++ parisPlacesText0 := by
  exact ⟨rfl, by decide⟩

/-- **C1, amended.** When both responses are present, `process_query`
returns them joined by a single space whenever the places text does not
contain `"places you can go"` (which `format_places_response`'s texts
never do); the `". And"`/lower-case-`"In "` combination only applies
when that guard holds. -/
theorem C1_amended (w p properPlaceName : String)
    (hw : strContains w "currently" = true)
    (hp : strContains p "places you can go" = false) :
    combineResponses [w, p] properPlaceName = w ++ " " ++ p := by
  simp [combineResponses, hw, hp, pyJoin]

/-- Witness for `C1_amended` at the spec's example texts. -/
theorem C1_amended_witness :
    strContains parisWeatherText "currently" = true ∧
    strContains parisPlacesText0 "places you can go" = false ∧
    combineResponses [parisWeatherText, parisPlacesText0] "Paris" =
      parisWeatherText ++ " " ++ parisPlacesText0 :=
  ⟨by decide, by decide, C1_amended parisWeatherText parisPlacesText0 "Paris"
    (by decide) (by decide)⟩

/-- **C2 (code bug).** `process_query` is claimed to always return a
non-empty string and never raise. But when the weather provider's
current block lacks `temperature_2m`, `get_weather` stores the string
`"N/A"`; `format_weather_response` checks `temp is not None` (true for
`"N/A"`), and `round("N/A")` raises an uncaught `TypeError` that
escapes `process_query`. -/
theorem C2_theorem :
    processQuery envNoTemp 12 0 "What's the weather in Paris?" =
      .error PyErr.typeError := rfl

/-- **C3, counterexample.** For the spec's example record
(`type="administrative"`, `class="boundary"`, importance 0.75,
`displayName="Karnataka, India"`), `check_if_state_or_region` returns
`False` (city), not `True` as claimed: the city-pattern rule fires
first because `"karnataka,"` occurs within the first 50 characters of
the display name — and the state/province rule could not apply anyway,
since it requires `class == "administrative"` and importance in
[0.4, 0.7]. -/
theorem C3_counterexample :
    checkIfStateOrRegion "Karnataka" karnatakaInfo = false := by decide

/-- **C3, amended.** `check_if_state_or_region` classifies the spec's
Karnataka record as a city (returns `false`); only the separate
no-attractions re-check (`is_likely_region`) flags Karnataka as a
region, via its `common_states` lookup table. -/
theorem C3_amended :
    checkIfStateOrRegion "Karnataka" karnatakaInfo = false ∧
    isLikelyRegion "Karnataka" karnatakaInfo = true :=
  ⟨by decide, by decide⟩

/-- **C4.** Deduplication of
`["Central Park", "Park", "The Central Park", "Eiffel Tower"]` yields
exactly `["The Central Park", "Eiffel Tower"]`: "Park" merges into the
"Central Park" cluster, whose longer variant "The Central Park" is
kept, and "Eiffel Tower" stays separate. -/
theorem C4_theorem :
    refinePlaces ["Central Park", "Park", "The Central Park", "Eiffel Tower"] =
      ["The Central Park", "Eiffel Tower"] := by decide

/-- **C5, counterexample.** Replacement is *not* in place: on
`["Central Park", "Eiffel Tower", "The Central Park"]` the longer
variant "The Central Park" replaces "Central Park" at the *end* of the
list, so the output is `["Eiffel Tower", "The Central Park"]` rather
than the claimed first-accepted-position order
`["The Central Park", "Eiffel Tower"]`. -/
theorem C5_counterexample :
    refinePlaces ["Central Park", "Eiffel Tower", "The Central Park"] =
      ["Eiffel Tower", "The Central Park"] ∧
    (["Eiffel Tower", "The Central Park"] : List String) ≠
      ["The Central Park", "Eiffel Tower"] :=
  ⟨by decide, by decide⟩

/-- **C5, amended.** The deduplicated list always has at most 5
elements; but when a later, longer variant replaces an earlier
representative, the old entry is removed and the new variant appended
at the end (the cluster moves to the last position instead of keeping
the position of its first-accepted representative). -/
theorem C5_amended :
    (∀ ps : List String, (refinePlaces ps).length ≤ 5) ∧
    refinePlaces ["Central Park", "Eiffel Tower", "The Central Park"] =
      ["Eiffel Tower", "The Central Park"] :=
  ⟨fun ps => by
      unfold refinePlaces maxPlaces
      exact List.length_take_le 5 (ps.foldl refineStep ([], [])).1,
    by decide⟩

/-- **C6, counterexample.** Two runs on the same query with identical
provider data and identical clock hour can differ: the
`random.choice` in `format_places_response` picks among five greeting
lines, and the query is not a greeting (so the difference is not the
time-of-day greeting text the claim excepts). -/
theorem C6_counterexample :
    processQuery envParis 12 0 "places to visit in Paris" = .ok parisPlacesText0 ∧
    processQuery envParis 12 1 "places to visit in Paris" = .ok parisPlacesText1 ∧
    parisPlacesText0 ≠ parisPlacesText1 ∧
    isGreeting (pyStrip "places to visit in Paris") = false :=
  ⟨rfl, rfl, by decide, by decide⟩

/-- **C6, amended.** Identical responses additionally require the same
pseudo-random draw for the places greeting line; given the same
provider data and the same draw, the response is byte-identical across
runs and, for non-greeting queries, independent of the clock hour
(only the greeting branch reads the clock). -/
theorem C6_amended (env : Env) (h1 h2 rng : Nat) (q : String)
    (hg : isGreeting (pyStrip q) = false) :
    processQuery env h1 rng q = processQuery env h2 rng q := by
  by_cases hb : isGoodbye (pyStrip q) = true
  · simp [processQuery, hb]
  · simp [processQuery, hb, hg]

/-- Witness for `C6_amended`: the same query and provider data at hours
9 and 17. -/
theorem C6_amended_witness :
    isGreeting (pyStrip "places to visit in Paris") = false ∧
    processQuery envParis 9 0 "places to visit in Paris" =
      processQuery envParis 17 0 "places to visit in Paris" :=
  ⟨by decide, C6_amended envParis 9 17 0 "places to visit in Paris" (by decide)⟩

/-- **C7.** Extraction on `"What's the weather in Bangalore?"` returns
exactly `"Bangalore"`: strategy 1 captures the text after
`weather in`, up to the question mark, and re-locates it in the
original-case input. -/
theorem C7_theorem :
    extractPlaceName "What's the weather in Bangalore?" = some "Bangalore" := rfl

/-- **C8.** The major-city whitelist short-circuits every other
heuristic: for any geocode record whatsoever, if the normalized place
name is whitelisted, `check_if_state_or_region` returns `false`. -/
theorem C8_theorem (placeName : String) (info : GeocodeInfo)
    (h : majorCities.contains (pyStrip (pyLower placeName)) = true) :
    checkIfStateOrRegion placeName info = false := by
  simp only [checkIfStateOrRegion, h]
  rw [if_pos trivial]

/-- Witness for `C8_theorem`: the spec's London example
(`type="administrative"`, importance 0.9). -/
theorem C8_witness :
    majorCities.contains (pyStrip (pyLower "London")) = true ∧
    checkIfStateOrRegion "London" londonInfo = false :=
  ⟨by decide, C8_theorem "London" londonInfo (by decide)⟩

/-- **C9.** If no weather keyword, no places keyword or phrase, and no
place-detail keyword occurs in the query (case-insensitive substring
membership), then the default rule applies: `places` is true, and
`weather` is true exactly when the query contains one of the
trip-planning words `going`/`trip`/`travel`/`plan`. -/
theorem C9_theorem (q : String)
    (hw : weatherKeywords.any (fun k => strContains (pyLower q) k) = false)
    (hp : placesKeywords.any (fun k => strContains (pyLower q) k) = false)
    (hph : placesPhrases.any (fun k => strContains (pyLower q) k) = false)
    (hd : placeDetailKeywords.any (fun k => strContains (pyLower q) k) = false) :
    (determineIntent q).places = true ∧
      ((determineIntent q).weather = true ↔
        tripWords.any (fun k => strContains (pyLower q) k) = true) := by
  unfold determineIntent
  simp only [hw, hp, hph, hd]
  by_cases ht : tripWords.any (fun k => strContains (pyLower q) k) = true
  · simp [ht]
  · simp only [Bool.not_eq_true] at ht
    simp [ht]

/-- Witness for `C9_theorem`: the keyword-free query `"lucknow"`
(no trip word, so `weather` comes out false). -/
theorem C9_witness :
    weatherKeywords.any (fun k => strContains (pyLower "lucknow") k) = false ∧
    (determineIntent "lucknow").places = true ∧
      ((determineIntent "lucknow").weather = true ↔
        tripWords.any (fun k => strContains (pyLower "lucknow") k) = true) :=
  ⟨by decide, C9_theorem "lucknow" (by decide) (by decide) (by decide) (by decide)⟩

/-- **C10.** The goodbye check runs before everything else and has no
intent guard: for any provider environment, clock hour and random
draw, any input whose stripped lower-cased form equals a goodbye
phrase, starts with one followed by a space, or ends with a space
followed by one, gets the fixed farewell text. -/
theorem C10_theorem (env : Env) (hour rng : Nat) (q : String)
    (h : isGoodbye (pyStrip q) = true) :
    processQuery env hour rng q = .ok goodbyeMsg := by
  simp [processQuery, h]

/-- Witness for `C10_theorem`: `"what places can I visit in Paris
thanks"` ends with `" thanks"`, so it gets the farewell even though it
contains a place name and a places keyword (and even with all
providers failing). -/
theorem C10_witness :
    isGoodbye (pyStrip "what places can I visit in Paris thanks") = true ∧
    processQuery envEmpty 12 0 "what places can I visit in Paris thanks" = .ok goodbyeMsg :=
  ⟨by decide, C10_theorem envEmpty 12 0 "what places can I visit in Paris thanks" (by decide)⟩

end Tourism
